import Mathlib

/-!
Shallow embedding of the MPI (Multidimensional Poverty Index) calculator
(`src/MPI.py`, `src/MPI_contributions.py`).  The Python code works on a pandas
DataFrame of numeric indicator columns; we model the table as a list of rows,
each row an association list from column names to rational values, and all
float arithmetic exactly over `ℚ`.  Python `None`/empty-dict truthiness is
modelled explicitly, and every uncaught exception of the computation (the
validation ValueErrors and the KeyErrors of the contribution-analysis phase)
becomes `Except.error`.
-/

/-- A dictionary from string keys to rational values (Python `dict`), and also
a CSV row (column name ↦ value). -/
abbrev Dict := List (String × ℚ)

/-- First-match lookup in an association list (Python `dict` access; keys of a
real Python dict are unique, so first match is the unique match). -/
def lookupQ : Dict → String → Option ℚ
  | [], _ => none
  | (k', v) :: w, k => if k' = k then some v else lookupQ w k

/-- `d.get(k, 0)` in Python: lookup with default `0`. -/
def dget (w : Dict) (k : String) : ℚ := (lookupQ w k).getD 0

/-- Sum of a dictionary's values (`sum(d.values())`). -/
def sumValues (w : Dict) : ℚ := (w.map Prod.snd).sum

/-- Python dict assignment `d[k] = v`: replace in place if present, else append. -/
def dinsert (w : Dict) (k : String) (v : ℚ) : Dict :=
  if w.any (fun p => p.1 = k) then w.map (fun p => if p.1 = k then (k, v) else p)
  else w ++ [(k, v)]

/-- Build a dict by successive assignments (models a Python loop of `d[k] = v`). -/
def dictOf (l : List (String × ℚ)) : Dict :=
  l.foldl (fun w p => dinsert w p.1 p.2) []

/-- Truthiness of an optional dict argument: Python `if d:` is false both for
`None` and for the empty dict. -/
def truthy : Option Dict → Bool
  | none => false
  | some w => !w.isEmpty

/-- The input table: the CSV loaded by `pd.read_csv` (column names plus rows). -/
structure Table where
  columns : List String
  rows : List Dict

/-- `dimensions`: mapping from domain names to their lists of indicators
(a Python dict, so an association list whose keys are unique in practice). -/
abbrev Dimensions := List (String × List String)

/-- `all_indicators = [ind for d in dimensions.values() for ind in d]`. -/
def allIndicators (dims : Dimensions) : List String :=
  (dims.map Prod.snd).flatten

/-- `np.isclose(a, b, rtol, atol)`: `|a - b| ≤ atol + rtol * |b|`
(NumPy's documented formula; its default `rtol` is `1e-5`, `atol` is `1e-8`). -/
def isclose (a b rtol atol : ℚ) : Bool := decide (|a - b| ≤ atol + rtol * |b|)

/-- Reading a row's value in a column (`row[ind]`); validated columns are
always present, so the default `0` is never exercised on valid input. -/
def getCol (r : Dict) (c : String) : ℚ := (lookupQ r c).getD 0

/-- The weight-resolution logic of `calculate_mpi` (`src/MPI.py` lines 37-71):
four cases on which of `domain_weights` / `indicator_weights` are truthy,
returning the resolved `(domain_weights, indicator_weights)` pair or the
`ValueError` message. -/
def resolveWeights (dims : Dimensions) (dwOpt iwOpt : Option Dict) :
    Except String (Dict × Dict) :=
  let dwu := dwOpt.getD []
  let iwu := iwOpt.getD []
  if truthy dwOpt && truthy iwOpt then
    -- Case 1: both provided; each domain's weight must be close to the sum of
    -- its indicators' weights (atol 0.001, NumPy default rtol 1e-5).
    if dims.any (fun p =>
        !isclose (dget dwu p.1) ((p.2.map (dget iwu)).sum) (1/100000) (1/1000)) then
      Except.error "domain weight mismatch"
    else Except.ok (dwu, iwu)
  else if truthy dwOpt then
    -- Case 2: only domain weights; split each domain's weight equally among
    -- its indicators, failing on a domain with no indicators.
    if dims.any (fun p => p.2.isEmpty) then
      Except.error "domain has no indicators to apply weights to"
    else
      Except.ok (dwu, dictOf (dims.flatMap (fun p =>
        p.2.map (fun i => (i, dget dwu p.1 / (p.2.length : ℚ))))))
  else if truthy iwOpt then
    -- Case 3: only indicator weights; each domain's weight is the sum of its
    -- indicators' weights.
    Except.ok (dims.map (fun p => (p.1, (p.2.map (dget iwu)).sum)), iwu)
  else
    -- Case 4: no weights; equal weighting 1/n over the n indicators.
    let n := (allIndicators dims).length
    if n = 0 then Except.error "No indicators defined in dimensions"
    else
      let iw : Dict := (allIndicators dims).dedup.map (fun i => (i, 1 / (n : ℚ)))
      Except.ok (dims.map (fun p => (p.1, (p.2.map (dget iw)).sum)), iw)

/-- A scored observation: the original row plus the `Deprivation_Score` and
`Is_Poor` columns added by `calculate_mpi`. -/
structure SRow where
  row : Dict
  score : ℚ
  isPoor : Bool
  deriving DecidableEq

/-- The weighted deprivation score of one row (`src/MPI.py` lines 84-87):
`sum(row[ind] * indicator_weights[ind] for ind in all_indicators)`. -/
def depScore (dims : Dimensions) (iw : Dict) (r : Dict) : ℚ :=
  ((allIndicators dims).map (fun i => getCol r i * dget iw i)).sum

/-- Mean of a list of rationals (pandas `.mean()`; the empty-mean case is
guarded by `H > 0` in the source and never reached there). -/
def listMean (l : List ℚ) : ℚ := l.sum / (l.length : ℚ)

/-- Mean of a boolean column (pandas casts `True` to 1, `False` to 0). -/
def boolMean (l : List Bool) : ℚ :=
  ((l.map (fun b => if b then (1 : ℚ) else 0)).sum) / (l.length : ℚ)

/-- The value returned by `calculate_mpi`: scored data, the aggregate
statistics, and the resolved weights. -/
structure MPIResult where
  data : List SRow
  H : ℚ
  A : ℚ
  MPI : ℚ
  domainW : Dict
  indicatorW : Dict
  deriving DecidableEq

deriving instance DecidableEq for Except

/-- `calculate_mpi` (`src/MPI.py`): column validation, weight resolution and
validation, deprivation scoring, poverty classification, the H/A/MPI
aggregates, and the failure points of the analysis phase that runs before the
return.  File output is ignored; every `raise ValueError`, and every KeyError
the analysis phase can hit, is an `Except.error`. -/
def calculate_mpi (t : Table) (dims : Dimensions) (dwOpt iwOpt : Option Dict)
    (threshold : ℚ) : Except String MPIResult :=
  -- Load data and validate columns (lines 31-35).
  if (allIndicators dims).any (fun i => !decide (i ∈ t.columns)) then
    Except.error "Missing columns"
  else
    match resolveWeights dims dwOpt iwOpt with
    | Except.error e => Except.error e
    | Except.ok (dwl, iwl) =>
      -- Final validation checks (lines 73-81).
      if !dwl.isEmpty && !isclose (sumValues dwl) 1 (1/100000) (1/1000) then
        Except.error "Domain weights do not sum to 1"
      else if !iwl.isEmpty &&
          (allIndicators dims).any (fun i => (lookupQ iwl i).isNone) then
        Except.error "Missing weights"
      else
        -- Core MPI calculation (lines 83-93).
        let data := t.rows.map (fun r =>
          let s := depScore dims iwl r
          ⟨r, s, decide (threshold ≤ s)⟩)
        let H := boolMean (data.map SRow.isPoor)
        let A := if H > 0 then listMean ((data.filter SRow.isPoor).map SRow.score)
                 else 0
        -- Analysis phase (lines 98-147): get_contribution_analysis reads
        -- poor_df[ind] for every key of the resolved indicator weights when
        -- H > 0, a KeyError when that key is not a column of the scored
        -- frame (the CSV columns plus the added Deprivation_Score and
        -- Is_Poor); and with no indicator weights at all the contribution
        -- frame is built from an empty list, so it has no columns and the
        -- final sort_values raises a KeyError on the Contribution column.
        if decide (0 < H) && iwl.any (fun p =>
            !(decide (p.1 ∈ t.columns) || p.1 == "Deprivation_Score"
              || p.1 == "Is_Poor")) then
          Except.error "KeyError: weight key not among the scored columns"
        else if iwl.isEmpty then
          Except.error "KeyError: Contribution"
        else
          Except.ok ⟨data, H, A, H * A, dwl, iwl⟩

/-- `calculate_indicator_contributions` (`src/MPI_contributions.py` lines
20-39): each indicator's contribution `H * weight * prevalence_in_poor`, with
the internal `np.isclose` consistency check (default rtol 1e-5, atol 1e-8)
against `H * mean deprivation score of the poor`. -/
def calculate_indicator_contributions (data : List SRow) (iw : Dict) (H : ℚ) :
    Except String Dict :=
  if H = 0 then Except.ok (iw.map (fun p => (p.1, 0)))
  else
    let poorData := data.filter SRow.isPoor
    let contributions : Dict := iw.map (fun p =>
      (p.1, H * p.2 * listMean (poorData.map (fun s => getCol s.row p.1))))
    let total := (contributions.map Prod.snd).sum
    if !isclose total (H * listMean (poorData.map SRow.score))
        (1/100000) (1/100000000) then
      Except.error "Contribution calculation error"
    else Except.ok contributions

/-! ### Elementary list and dictionary lemmas -/

lemma sum_map_const {α : Type} (l : List α) (c : ℚ) :
    (l.map (fun _ => c)).sum = (l.length : ℚ) * c := by
  induction l with
  | nil => simp
  | cons a l ih => simp [ih]; ring

lemma sum_map_add {β : Type} (l : List β) (f g : β → ℚ) :
    (l.map (fun b => f b + g b)).sum = (l.map f).sum + (l.map g).sum := by
  induction l with
  | nil => simp
  | cons a l ih => simp [ih]; ring

lemma sum_map_swap {α β : Type} (l1 : List α) (l2 : List β) (f : α → β → ℚ) :
    (l1.map (fun a => (l2.map (fun b => f a b)).sum)).sum
      = (l2.map (fun b => (l1.map (fun a => f a b)).sum)).sum := by
  induction l1 with
  | nil => simp [List.sum_eq_zero]
  | cons a l ih => simp only [List.map_cons, List.sum_cons, ih, ← sum_map_add]

lemma sum_indicator_eq_count (l : List Bool) :
    (l.map (fun b => if b then (1 : ℚ) else 0)).sum = (l.count true : ℚ) := by
  induction l with
  | nil => simp
  | cons a l ih =>
    cases a
    · simp [ih, List.count_cons]
    · simp [ih, List.count_cons]
      ring

lemma count_true_map_eq_length_filter {α : Type} (l : List α) (f : α → Bool) :
    (l.map f).count true = (l.filter f).length := by
  induction l with
  | nil => simp
  | cons a l ih =>
    by_cases h : f a = true <;> simp [List.count_cons, List.filter_cons, h, ih]

lemma boolMean_eq (l : List Bool) :
    boolMean l = (l.count true : ℚ) / (l.length : ℚ) := by
  rw [boolMean, sum_indicator_eq_count]

lemma boolMean_pos {l : List Bool} (h : 0 < l.count true) : 0 < boolMean l := by
  rw [boolMean_eq]
  have hlen : 0 < l.length := lt_of_lt_of_le h (List.count_le_length true l)
  exact div_pos (by exact_mod_cast h) (by exact_mod_cast hlen)

lemma boolMean_eq_zero {l : List Bool} (h : l.count true = 0) : boolMean l = 0 := by
  rw [boolMean_eq, h]; simp

lemma lookupQ_map_const {l : List String} {c : ℚ} {i : String} (h : i ∈ l) :
    lookupQ (l.map (fun j => (j, c))) i = some c := by
  induction l with
  | nil => cases h
  | cons a l ih =>
    rw [List.mem_cons] at h
    by_cases ha : a = i
    · simp [lookupQ, ha]
    · simp only [List.map_cons, lookupQ, if_neg ha]
      exact ih (h.resolve_left (fun hh => ha hh.symm))

lemma lookupQ_self_of_nodup {w : Dict} (hnd : (w.map Prod.fst).Nodup) :
    ∀ p ∈ w, lookupQ w p.1 = some p.2 := by
  induction w with
  | nil => intro p hp; cases hp
  | cons q w ih =>
    intro p hp
    rw [List.map_cons, List.nodup_cons] at hnd
    rcases List.mem_cons.1 hp with h | h
    · subst h; simp [lookupQ]
    · have hne : q.1 ≠ p.1 := by
        intro he
        exact hnd.1 (he ▸ List.mem_map_of_mem Prod.fst h)
      simp only [lookupQ, if_neg hne]
      exact ih hnd.2 p h

/-! ### Shape of a successful run -/

/-- `Except.ok` case of `calculate_mpi`: the result fields are exactly the
resolved weights, the scored rows, and the aggregates the source computes. -/
lemma calculate_mpi_ok {t : Table} {dims : Dimensions} {dwOpt iwOpt : Option Dict}
    {th : ℚ} {res : MPIResult}
    (h : calculate_mpi t dims dwOpt iwOpt th = Except.ok res) :
    resolveWeights dims dwOpt iwOpt = Except.ok (res.domainW, res.indicatorW) ∧
    res.data = t.rows.map (fun r =>
      ⟨r, depScore dims res.indicatorW r, decide (th ≤ depScore dims res.indicatorW r)⟩) ∧
    res.H = boolMean (res.data.map SRow.isPoor) ∧
    res.A = (if 0 < res.H then listMean ((res.data.filter SRow.isPoor).map SRow.score)
             else 0) ∧
    res.MPI = res.H * res.A := by
  unfold calculate_mpi at h
  split at h
  · cases h
  · cases hres : resolveWeights dims dwOpt iwOpt with
    | error e => rw [hres] at h; cases h
    | ok p =>
      obtain ⟨dwl, iwl⟩ := p
      rw [hres] at h
      dsimp only at h
      split at h
      · cases h
      · split at h
        · cases h
        · split at h
          · cases h
          · split at h
            · cases h
            · cases h
              exact ⟨rfl, rfl, rfl, rfl, rfl⟩

/-! ### Concrete inputs for the witness theorems -/

/-- A two-row table over indicators `a`, `b`: one fully deprived row, one
fully non-deprived row. -/
def witTable : Table := ⟨["a", "b"], [[("a", 1), ("b", 1)], [("a", 0), ("b", 0)]]⟩

/-- One domain `d` holding both indicators. -/
def witDims : Dimensions := [("d", ["a", "b"])]

/-- The result of `calculate_mpi witTable witDims none none (1/3)`. -/
def witRes : MPIResult :=
  ⟨[⟨[("a", 1), ("b", 1)], 1, true⟩, ⟨[("a", 0), ("b", 0)], 0, false⟩],
    1/2, 1, 1/2, [("d", 1)], [("a", 1/2), ("b", 1/2)]⟩

/-- A one-row table with no deprivations at all (so nobody is poor). -/
def witTable0 : Table := ⟨["a", "b"], [[("a", 0), ("b", 0)]]⟩

/-- The result of `calculate_mpi witTable0 witDims none none (1/3)`. -/
def witRes0 : MPIResult :=
  ⟨[⟨[("a", 0), ("b", 0)], 0, false⟩], 0, 0, 0, [("d", 1)], [("a", 1/2), ("b", 1/2)]⟩

/-! ### The claims -/

/-- Claim C1: on every input on which `calculate_mpi` returns normally, the
returned MPI value equals the product of the returned headcount ratio H and
the returned intensity A. -/
theorem mpi_is_product_of_H_and_A (t : Table) (dims : Dimensions)
    (dwOpt iwOpt : Option Dict) (th : ℚ) (res : MPIResult)
    (h : calculate_mpi t dims dwOpt iwOpt th = Except.ok res) :
    res.MPI = res.H * res.A :=
  (calculate_mpi_ok h).2.2.2.2

theorem mpi_is_product_of_H_and_A_witness :
    witRes.MPI = witRes.H * witRes.A :=
  mpi_is_product_of_H_and_A witTable witDims none none (1/3) witRes
    (by with_unfolding_all decide)

/-- Claim C3: on every input on which `calculate_mpi` returns normally, the
returned headcount ratio H equals the number of observations classified as
poor divided by the total number of observations in the table. -/
theorem headcount_ratio_is_poor_fraction (t : Table) (dims : Dimensions)
    (dwOpt iwOpt : Option Dict) (th : ℚ) (res : MPIResult)
    (h : calculate_mpi t dims dwOpt iwOpt th = Except.ok res) :
    res.H = ((res.data.filter SRow.isPoor).length : ℚ) / (t.rows.length : ℚ) := by
  obtain ⟨-, hdata, hH, -, -⟩ := calculate_mpi_ok h
  have hlen : (res.data.map SRow.isPoor).length = t.rows.length := by
    rw [List.length_map, hdata, List.length_map]
  rw [hH, boolMean_eq, count_true_map_eq_length_filter, hlen]

theorem headcount_ratio_is_poor_fraction_witness :
    witRes.H = ((witRes.data.filter SRow.isPoor).length : ℚ) / (witTable.rows.length : ℚ) :=
  headcount_ratio_is_poor_fraction witTable witDims none none (1/3) witRes
    (by with_unfolding_all decide)

/-- Claim C4: on every input with at least one observation classified as poor,
the returned intensity A is the arithmetic mean of the deprivation scores of
exactly the poor observations. -/
theorem intensity_is_mean_score_of_poor (t : Table) (dims : Dimensions)
    (dwOpt iwOpt : Option Dict) (th : ℚ) (res : MPIResult)
    (h : calculate_mpi t dims dwOpt iwOpt th = Except.ok res)
    (hp : 0 < (res.data.filter SRow.isPoor).length) :
    res.A = ((res.data.filter SRow.isPoor).map SRow.score).sum
              / ((res.data.filter SRow.isPoor).length : ℚ) := by
  obtain ⟨-, -, hH, hA, -⟩ := calculate_mpi_ok h
  have hpos : 0 < res.H := by
    rw [hH]
    exact boolMean_pos (by rw [count_true_map_eq_length_filter]; exact hp)
  rw [hA, if_pos hpos, listMean, List.length_map]

theorem intensity_is_mean_score_of_poor_witness :
    witRes.A = ((witRes.data.filter SRow.isPoor).map SRow.score).sum
              / ((witRes.data.filter SRow.isPoor).length : ℚ) :=
  intensity_is_mean_score_of_poor witTable witDims none none (1/3) witRes
    (by with_unfolding_all decide) (by decide)

/-- Claim C5: every observation keeps its original row, and its deprivation
score is the sum, over the indicators listed in `dimensions`, of the row value
in that indicator times the resolved weight of that indicator. -/
theorem deprivation_score_is_weighted_sum (t : Table) (dims : Dimensions)
    (dwOpt iwOpt : Option Dict) (th : ℚ) (res : MPIResult)
    (h : calculate_mpi t dims dwOpt iwOpt th = Except.ok res) :
    res.data.map SRow.row = t.rows ∧
    ∀ s ∈ res.data,
      s.score = ((allIndicators dims).map
        (fun i => getCol s.row i * dget res.indicatorW i)).sum := by
  obtain ⟨-, hdata, -, -, -⟩ := calculate_mpi_ok h
  constructor
  · rw [hdata, List.map_map]
    exact List.map_id t.rows
  · intro s hs
    rw [hdata] at hs
    obtain ⟨r, hr, rfl⟩ := List.mem_map.1 hs
    rfl

theorem deprivation_score_is_weighted_sum_witness :
    witRes.data.map SRow.row = witTable.rows ∧
    ∀ s ∈ witRes.data,
      s.score = ((allIndicators witDims).map
        (fun i => getCol s.row i * dget witRes.indicatorW i)).sum :=
  deprivation_score_is_weighted_sum witTable witDims none none (1/3) witRes
    (by with_unfolding_all decide)

/-- Claim C6: an observation is classified poor exactly when its deprivation
score is greater than or equal to the poverty threshold (a score exactly at
the threshold counts as poor). -/
theorem poor_iff_score_ge_threshold (t : Table) (dims : Dimensions)
    (dwOpt iwOpt : Option Dict) (th : ℚ) (res : MPIResult)
    (h : calculate_mpi t dims dwOpt iwOpt th = Except.ok res) :
    ∀ s ∈ res.data, (s.isPoor = true ↔ th ≤ s.score) := by
  obtain ⟨-, hdata, -, -, -⟩ := calculate_mpi_ok h
  intro s hs
  rw [hdata] at hs
  obtain ⟨r, hr, rfl⟩ := List.mem_map.1 hs
  exact decide_eq_true_iff

theorem poor_iff_score_ge_threshold_witness :
    (⟨[("a", 1), ("b", 1)], 1, true⟩ : SRow) ∈ witRes.data ∧
    (SRow.isPoor ⟨[("a", 1), ("b", 1)], 1, true⟩ = true ↔
      (1 : ℚ)/3 ≤ SRow.score ⟨[("a", 1), ("b", 1)], 1, true⟩) :=
  ⟨by decide,
    poor_iff_score_ge_threshold witTable witDims none none (1/3) witRes
      (by with_unfolding_all decide) ⟨[("a", 1), ("b", 1)], 1, true⟩ (by decide)⟩

/-- Claim C8: the computation is a pure function of the table, the dimensions,
the two weight dictionaries and the threshold: equal inputs give equal
outputs (equal scores, classifications, H, A and MPI). -/
theorem calculate_mpi_deterministic (t₁ t₂ : Table) (dims₁ dims₂ : Dimensions)
    (dw₁ dw₂ iw₁ iw₂ : Option Dict) (th₁ th₂ : ℚ)
    (ht : t₁ = t₂) (hd : dims₁ = dims₂) (hdw : dw₁ = dw₂) (hiw : iw₁ = iw₂)
    (hth : th₁ = th₂) :
    calculate_mpi t₁ dims₁ dw₁ iw₁ th₁ = calculate_mpi t₂ dims₂ dw₂ iw₂ th₂ := by
  subst ht hd hdw hiw hth; rfl

theorem calculate_mpi_deterministic_witness :
    calculate_mpi witTable witDims none none (1/3)
      = calculate_mpi witTable witDims none none (1/3) :=
  calculate_mpi_deterministic witTable witTable witDims witDims none none none none
    (1/3) (1/3) rfl rfl rfl rfl rfl

/-- Claim C9: when no observation is classified as poor, `calculate_mpi`
returns H = 0, A = 0 and MPI = 0, and `calculate_indicator_contributions`
returns 0 for every indicator without attempting a mean over the empty set of
poor rows. -/
theorem no_poor_yields_zero_stats (t : Table) (dims : Dimensions)
    (dwOpt iwOpt : Option Dict) (th : ℚ) (res : MPIResult)
    (h : calculate_mpi t dims dwOpt iwOpt th = Except.ok res)
    (hnp : ∀ s ∈ res.data, s.isPoor = false) :
    res.H = 0 ∧ res.A = 0 ∧ res.MPI = 0 ∧
    calculate_indicator_contributions res.data res.indicatorW res.H
      = Except.ok (res.indicatorW.map (fun p => (p.1, 0))) := by
  obtain ⟨-, -, hH, hA, hM⟩ := calculate_mpi_ok h
  have hc : (res.data.map SRow.isPoor).count true = 0 := by
    rw [List.count_eq_zero]
    intro hmem
    obtain ⟨s, hs, hfalse⟩ := List.mem_map.1 hmem
    rw [hnp s hs] at hfalse
    cases hfalse
  have hH0 : res.H = 0 := by rw [hH]; exact boolMean_eq_zero hc
  refine ⟨hH0, ?_, ?_, ?_⟩
  · rw [hA, hH0]; simp
  · rw [hM, hH0, zero_mul]
  · rw [hH0]
    simp [calculate_indicator_contributions]

theorem no_poor_yields_zero_stats_witness :
    witRes0.H = 0 ∧ witRes0.A = 0 ∧ witRes0.MPI = 0 ∧
    calculate_indicator_contributions witRes0.data witRes0.indicatorW witRes0.H
      = Except.ok (witRes0.indicatorW.map (fun p => (p.1, 0))) :=
  no_poor_yields_zero_stats witTable0 witDims none none (1/3) witRes0
    (by with_unfolding_all decide) (by decide)

/-! ### Contribution decomposition (C2) -/

lemma isclose_self (x rtol atol : ℚ) (h1 : 0 ≤ atol) (h2 : 0 ≤ rtol) :
    isclose x x rtol atol = true := by
  rw [isclose, decide_eq_true_iff, sub_self, abs_zero]
  have : 0 ≤ rtol * |x| := mul_nonneg h2 (abs_nonneg x)
  linarith

/-- Key algebraic identity: when the keys of the weight dictionary are a
permutation of the (duplicate-free) indicator list and every poor row carries
the weighted-sum score, the total of the per-indicator contributions
`H * weight * prevalence` is exactly `H * mean(score over the poor rows)`. -/
lemma contributions_total_eq (iw : Dict) (inds : List String) (poor : List SRow)
    (H : ℚ)
    (hscore : ∀ s ∈ poor, s.score = (inds.map (fun i => getCol s.row i * dget iw i)).sum)
    (hperm : (iw.map Prod.fst).Perm inds)
    (hnd : inds.Nodup) :
    (iw.map (fun p => H * p.2 * listMean (poor.map (fun s => getCol s.row p.1)))).sum
      = H * listMean (poor.map SRow.score) := by
  have hknd : (iw.map Prod.fst).Nodup := hperm.nodup_iff.mpr hnd
  have hval : ∀ p ∈ iw, p.2 = dget iw p.1 := by
    intro p hp
    rw [dget, lookupQ_self_of_nodup hknd p hp, Option.getD_some]
  -- The sum of the scores of the poor rows, indicator by indicator.
  have h1 : (poor.map SRow.score).sum
      = (inds.map (fun i =>
          (poor.map (fun s => getCol s.row i)).sum * dget iw i)).sum := by
    rw [List.map_congr_left hscore, sum_map_swap]
    apply congrArg
    apply List.map_congr_left
    intro i _
    exact List.sum_map_mul_right poor (fun s => getCol s.row i) (dget iw i)
  -- The contribution total, re-indexed over the indicator list.
  have h2 : (iw.map (fun p =>
        H * p.2 * listMean (poor.map (fun s => getCol s.row p.1)))).sum
      = (inds.map (fun i =>
          H * dget iw i * listMean (poor.map (fun s => getCol s.row i)))).sum := by
    have e1 : (iw.map (fun p =>
          H * p.2 * listMean (poor.map (fun s => getCol s.row p.1))))
        = (iw.map (fun p =>
          H * dget iw p.1 * listMean (poor.map (fun s => getCol s.row p.1)))) :=
      List.map_congr_left (fun p hp => by rw [hval p hp])
    have e2 : (iw.map (fun p =>
          H * dget iw p.1 * listMean (poor.map (fun s => getCol s.row p.1))))
        = (iw.map Prod.fst).map (fun i =>
          H * dget iw i * listMean (poor.map (fun s => getCol s.row i))) := by
      rw [List.map_map]
      exact List.map_congr_left (fun p _ => rfl)
    rw [e1, e2]
    exact (hperm.map _).sum_eq
  rw [h2, listMean, List.length_map, h1]
  have h3 : (inds.map (fun i =>
        H * dget iw i * listMean (poor.map (fun s => getCol s.row i))))
      = (inds.map (fun i =>
        (H / (poor.length : ℚ)) *
          ((poor.map (fun s => getCol s.row i)).sum * dget iw i))) := by
    apply List.map_congr_left
    intro i _
    rw [listMean, List.length_map]
    ring
  rw [h3, List.sum_map_mul_left]
  ring

/-- Claim C2: with at least one poor observation, resolved indicator weights
keyed exactly by the indicators of `dimensions` (no duplicates), each
contribution is `H * weight * prevalence among the poor`, the contribution
total passes the internal consistency check and equals MPI, which is `H`
times the mean deprivation score of the poor. -/
theorem indicator_contributions_decompose_mpi (t : Table) (dims : Dimensions)
    (dwOpt iwOpt : Option Dict) (th : ℚ) (res : MPIResult)
    (h : calculate_mpi t dims dwOpt iwOpt th = Except.ok res)
    (hpoor : 0 < (res.data.filter SRow.isPoor).length)
    (hperm : (res.indicatorW.map Prod.fst).Perm (allIndicators dims))
    (hnd : (allIndicators dims).Nodup) :
    calculate_indicator_contributions res.data res.indicatorW res.H
      = Except.ok (res.indicatorW.map (fun p =>
          (p.1, res.H * p.2 *
            listMean ((res.data.filter SRow.isPoor).map (fun s => getCol s.row p.1))))) ∧
    ((res.indicatorW.map (fun p =>
        (p.1, res.H * p.2 *
          listMean ((res.data.filter SRow.isPoor).map (fun s => getCol s.row p.1))))).map
        Prod.snd).sum = res.MPI ∧
    res.MPI = res.H * listMean ((res.data.filter SRow.isPoor).map SRow.score) := by
  obtain ⟨-, hdata, hH, hA, hM⟩ := calculate_mpi_ok h
  have hscore : ∀ s ∈ res.data.filter SRow.isPoor,
      s.score = ((allIndicators dims).map
        (fun i => getCol s.row i * dget res.indicatorW i)).sum := by
    intro s hs
    have hs' := List.mem_of_mem_filter hs
    rw [hdata] at hs'
    obtain ⟨r, hr, rfl⟩ := List.mem_map.1 hs'
    rfl
  have hkey := contributions_total_eq res.indicatorW (allIndicators dims)
    (res.data.filter SRow.isPoor) res.H hscore hperm hnd
  have hHpos : 0 < res.H := by
    rw [hH]
    exact boolMean_pos (by rw [count_true_map_eq_length_filter]; exact hpoor)
  have hHne : res.H ≠ 0 := ne_of_gt hHpos
  have e : ((res.indicatorW.map (fun p =>
        (p.1, res.H * p.2 *
          listMean ((res.data.filter SRow.isPoor).map (fun s => getCol s.row p.1))))).map
        Prod.snd)
      = res.indicatorW.map (fun p =>
        res.H * p.2 *
          listMean ((res.data.filter SRow.isPoor).map (fun s => getCol s.row p.1))) := by
    rw [List.map_map]
    exact List.map_congr_left (fun p _ => rfl)
  have hMPI : res.MPI
      = res.H * listMean ((res.data.filter SRow.isPoor).map SRow.score) := by
    rw [hM, hA, if_pos hHpos]
  refine ⟨?_, ?_, hMPI⟩
  · unfold calculate_indicator_contributions
    rw [if_neg hHne]
    dsimp only
    rw [e, hkey,
      isclose_self (res.H * listMean ((res.data.filter SRow.isPoor).map SRow.score))
        (1/100000) (1/100000000) (by norm_num) (by norm_num)]
    simp
  · rw [e, hkey, hMPI]

theorem indicator_contributions_decompose_mpi_witness :
    calculate_indicator_contributions witRes.data witRes.indicatorW witRes.H
      = Except.ok (witRes.indicatorW.map (fun p =>
          (p.1, witRes.H * p.2 *
            listMean ((witRes.data.filter SRow.isPoor).map (fun s => getCol s.row p.1))))) ∧
    ((witRes.indicatorW.map (fun p =>
        (p.1, witRes.H * p.2 *
          listMean ((witRes.data.filter SRow.isPoor).map (fun s => getCol s.row p.1))))).map
        Prod.snd).sum = witRes.MPI ∧
    witRes.MPI = witRes.H * listMean ((witRes.data.filter SRow.isPoor).map SRow.score) :=
  indicator_contributions_decompose_mpi witTable witDims none none (1/3) witRes
    (by with_unfolding_all decide) (by decide)
    (by with_unfolding_all exact List.Perm.refl _) (by decide)

/-! ### Equal-weighting fallback (C10) -/

lemma dget_map_const {l : List String} {c : ℚ} {i : String} (h : i ∈ l) :
    dget (l.map (fun j => (j, c))) i = c := by
  rw [dget, lookupQ_map_const h, Option.getD_some]

lemma cast_sum_lengths (dims : Dimensions) :
    ((allIndicators dims).length : ℚ)
      = (dims.map (fun p => (p.2.length : ℚ))).sum := by
  rw [allIndicators, List.length_flatten, List.map_map, Nat.cast_list_sum,
    List.map_map]
  exact congrArg List.sum (List.map_congr_left (fun p _ => rfl))

/-- Claim C10: with no weight dictionaries supplied and `n ≥ 1` (distinct)
indicators listed in `dimensions`, `calculate_mpi` succeeds and applies equal
weighting: every indicator gets weight `1/n`, every domain gets (number of its
indicators)`/n`, and the resolved indicator weights sum to 1; with no
indicators at all it raises the `ValueError` instead. -/
theorem equal_weighting_fallback (t : Table) (dims : Dimensions) (th : ℚ)
    (hnd : (allIndicators dims).Nodup)
    (hcols : ∀ i ∈ allIndicators dims, i ∈ t.columns) :
    (allIndicators dims ≠ [] →
      ∃ res, calculate_mpi t dims none none th = Except.ok res ∧
        (∀ i ∈ allIndicators dims,
          dget res.indicatorW i = 1 / ((allIndicators dims).length : ℚ)) ∧
        res.domainW = dims.map (fun p =>
          (p.1, (p.2.length : ℚ) / ((allIndicators dims).length : ℚ))) ∧
        sumValues res.indicatorW = 1) ∧
    (allIndicators dims = [] →
      calculate_mpi t dims none none th
        = Except.error "No indicators defined in dimensions") := by
  constructor
  · intro hne
    have hn0 : (allIndicators dims).length ≠ 0 := by
      simpa [List.length_eq_zero] using hne
    have hnQ : ((allIndicators dims).length : ℚ) ≠ 0 := Nat.cast_ne_zero.mpr hn0
    have hdedup : (allIndicators dims).dedup = allIndicators dims :=
      List.dedup_eq_self.mpr hnd
    set n : ℚ := ((allIndicators dims).length : ℚ) with hn
    set iwC : Dict := (allIndicators dims).dedup.map (fun i => (i, 1 / n)) with hiwC
    set dwC : Dict := dims.map (fun p => (p.1, (p.2.map (dget iwC)).sum)) with hdwC
    have hgetC : ∀ i ∈ allIndicators dims, dget iwC i = 1 / n := by
      intro i hi
      rw [hiwC, hdedup]
      exact dget_map_const hi
    have hdwCval : dwC = dims.map (fun p => (p.1, (p.2.length : ℚ) / n)) := by
      rw [hdwC]
      apply List.map_congr_left
      intro p hp
      have : p.2.map (dget iwC) = p.2.map (fun _ => 1 / n) := by
        apply List.map_congr_left
        intro i hi
        exact hgetC i (List.mem_flatten.mpr ⟨p.2, List.mem_map_of_mem Prod.snd hp, hi⟩)
      rw [this, sum_map_const, mul_one_div]
    have hsumdw : sumValues dwC = 1 := by
      rw [hdwCval, sumValues, List.map_map]
      have : (dims.map (Prod.snd ∘ fun p => (p.1, (p.2.length : ℚ) / n)))
          = dims.map (fun p => (p.2.length : ℚ) * (1 / n)) :=
        List.map_congr_left (fun p _ => by rw [Function.comp_apply, mul_one_div])
      rw [this, List.sum_map_mul_right, ← cast_sum_lengths, ← hn, mul_one_div,
        div_self hnQ]
    have hsumiw : sumValues iwC = 1 := by
      rw [hiwC, hdedup, sumValues, List.map_map]
      have : ((allIndicators dims).map (Prod.snd ∘ fun i => (i, 1 / n)))
          = (allIndicators dims).map (fun _ => 1 / n) :=
        List.map_congr_left (fun i _ => rfl)
      rw [this, sum_map_const, ← hn, mul_one_div, div_self hnQ]
    have hres : resolveWeights dims none none = Except.ok (dwC, iwC) := by
      unfold resolveWeights
      simp only [truthy, Bool.false_and, Bool.and_self, if_neg, Bool.false_eq_true,
        if_false]
      rw [if_neg hn0]
    have hanyc : ((allIndicators dims).any (fun i => !decide (i ∈ t.columns))) = false := by
      rw [List.any_eq_false]
      intro i hi
      simp [hcols i hi]
    have hc1 : (!dwC.isEmpty && !isclose (sumValues dwC) 1 (1/100000) (1/1000)) = false := by
      rw [hsumdw, isclose_self 1 (1/100000) (1/1000) (by norm_num) (by norm_num)]
      simp
    have hc2 : (!iwC.isEmpty &&
        (allIndicators dims).any (fun i => (lookupQ iwC i).isNone)) = false := by
      have : ((allIndicators dims).any (fun i => (lookupQ iwC i).isNone)) = false := by
        rw [List.any_eq_false]
        intro i hi
        rw [hiwC, hdedup, lookupQ_map_const hi]
        simp
      rw [this]
      simp
    have hc3 : (iwC.any (fun p =>
        !(decide (p.1 ∈ t.columns) || p.1 == "Deprivation_Score"
          || p.1 == "Is_Poor"))) = false := by
      rw [List.any_eq_false]
      intro p hp
      have hpk : p.1 ∈ allIndicators dims := by
        rw [hiwC, hdedup] at hp
        obtain ⟨i, hi, rfl⟩ := List.mem_map.1 hp
        exact hi
      simp [hcols p.1 hpk]
    have hc4 : iwC.isEmpty = false := by
      rw [hiwC, hdedup]
      cases hx : allIndicators dims with
      | nil => exact absurd hx hne
      | cons a l => rfl
    have hok : ∃ res, calculate_mpi t dims none none th = Except.ok res ∧
        res.domainW = dwC ∧ res.indicatorW = iwC := by
      unfold calculate_mpi
      rw [hanyc, hres]
      dsimp only
      rw [hc1, hc2, hc3, hc4]
      simp only [Bool.false_eq_true, Bool.and_false, if_false]
      exact ⟨_, rfl, rfl, rfl⟩
    obtain ⟨res, hok, hdw, hiw⟩ := hok
    refine ⟨res, hok, ?_, ?_, ?_⟩
    · intro i hi
      rw [hiw]
      exact hgetC i hi
    · rw [hdw, hdwCval]
    · rw [hiw]
      exact hsumiw
  · intro he
    unfold calculate_mpi resolveWeights
    rw [he]
    simp [truthy]

theorem equal_weighting_fallback_witness :
    ∃ res, calculate_mpi witTable witDims none none (1/3) = Except.ok res ∧
      (∀ i ∈ allIndicators witDims,
        dget res.indicatorW i = 1 / ((allIndicators witDims).length : ℚ)) ∧
      res.domainW = witDims.map (fun p =>
        (p.1, (p.2.length : ℚ) / ((allIndicators witDims).length : ℚ))) ∧
      sumValues res.indicatorW = 1 :=
  (equal_weighting_fallback witTable witDims (1/3) (by decide) (by decide)).1
    (by decide)

/-! ### ValueError characterization (C7) -/

lemma error_ite_iff {α : Type} (c : Prop) [Decidable c] (m : String) (v : α) :
    (∃ e, (if c then (Except.error m : Except String α) else Except.ok v)
      = Except.error e) ↔ c := by
  by_cases h : c <;> simp [h]

/-- Exactly when the weight-resolution step raises: a domain-weight mismatch
with both dictionaries truthy, an empty domain with only domain weights
truthy, or no indicators with neither truthy. -/
lemma resolveWeights_error_iff (dims : Dimensions) (dwOpt iwOpt : Option Dict) :
    (∃ e, resolveWeights dims dwOpt iwOpt = Except.error e) ↔
      ((truthy dwOpt = true ∧ truthy iwOpt = true ∧ ∃ p ∈ dims,
          isclose (dget (dwOpt.getD []) p.1)
            ((p.2.map (dget (iwOpt.getD []))).sum) (1/100000) (1/1000) = false)
       ∨ (truthy dwOpt = true ∧ truthy iwOpt = false ∧ ∃ p ∈ dims, p.2 = [])
       ∨ (truthy dwOpt = false ∧ truthy iwOpt = false ∧ allIndicators dims = [])) := by
  unfold resolveWeights
  cases hdw : truthy dwOpt <;> cases hiw : truthy iwOpt <;>
    simp only [Bool.and_self, Bool.true_and, Bool.false_and, Bool.and_false,
      Bool.and_true, Bool.false_eq_true, Bool.true_eq_false, if_true, if_false,
      eq_self_iff_true, true_and, false_and, and_false, and_true, or_false,
      false_or]
  · -- neither truthy: only the n = 0 error is possible
    rw [error_ite_iff]
    exact List.length_eq_zero
  · -- only indicator weights truthy: never raises
    simp
  · -- only domain weights truthy: empty-domain error
    rw [error_ite_iff]
    simp only [List.any_eq_true, List.isEmpty_iff]
  · -- both truthy: mismatch error
    rw [error_ite_iff]
    simp only [List.any_eq_true, Bool.not_eq_true']

lemma error_ite4_iff {α : Type} (b1 b2 b3 b4 : Bool) (m1 m2 m3 m4 : String)
    (v : α) :
    (∃ e, (if b1 = true then (Except.error m1 : Except String α)
           else if b2 = true then Except.error m2
           else if b3 = true then Except.error m3
           else if b4 = true then Except.error m4 else Except.ok v)
      = Except.error e) ↔ (b1 = true ∨ b2 = true ∨ b3 = true ∨ b4 = true) := by
  cases b1 <;> cases b2 <;> cases b3 <;> cases b4 <;> simp

lemma poorFlags_map (t : Table) (dims : Dimensions) (iwl : Dict) (th : ℚ) :
    ((t.rows.map (fun r =>
        (⟨r, depScore dims iwl r, decide (th ≤ depScore dims iwl r)⟩ : SRow))).map
      SRow.isPoor)
      = t.rows.map (fun r => decide (th ≤ depScore dims iwl r)) := by
  rw [List.map_map]
  exact List.map_congr_left (fun r _ => rfl)

/-- Claim C7 (amended): `calculate_mpi` fails, before returning, exactly when
one of these holds.  A ValueError when: an indicator of `dimensions` is
missing from the columns; both weight dicts are truthy and a domain weight is
not `np.isclose` to its indicators' sum; only domain weights are truthy and
some domain has no indicators; neither is truthy and `dimensions` lists no
indicators; the resolved domain weights are nonempty and their sum is not
`np.isclose` to 1; or the resolved indicator weights are nonempty and lack an
entry for some indicator.  Or, all validations passing, a KeyError in the
contribution analysis when: some observation is poor and a resolved
indicator-weight key is not a column of the scored frame; or the resolved
indicator weights are empty, so the contribution frame has no Contribution
column for its final sort.  On all other inputs it completes. -/
theorem failure_characterization (t : Table) (dims : Dimensions)
    (dwOpt iwOpt : Option Dict) (th : ℚ) :
    (∃ e, calculate_mpi t dims dwOpt iwOpt th = Except.error e) ↔
      ((∃ i ∈ allIndicators dims, i ∉ t.columns)
       ∨ (truthy dwOpt = true ∧ truthy iwOpt = true ∧ ∃ p ∈ dims,
            isclose (dget (dwOpt.getD []) p.1)
              ((p.2.map (dget (iwOpt.getD []))).sum) (1/100000) (1/1000) = false)
       ∨ (truthy dwOpt = true ∧ truthy iwOpt = false ∧ ∃ p ∈ dims, p.2 = [])
       ∨ (truthy dwOpt = false ∧ truthy iwOpt = false ∧ allIndicators dims = [])
       ∨ (∃ dwl iwl, resolveWeights dims dwOpt iwOpt = Except.ok (dwl, iwl) ∧
            dwl ≠ [] ∧ isclose (sumValues dwl) 1 (1/100000) (1/1000) = false)
       ∨ (∃ dwl iwl, resolveWeights dims dwOpt iwOpt = Except.ok (dwl, iwl) ∧
            iwl ≠ [] ∧ ∃ i ∈ allIndicators dims, lookupQ iwl i = none)
       ∨ (∃ dwl iwl, resolveWeights dims dwOpt iwOpt = Except.ok (dwl, iwl) ∧
            0 < boolMean (t.rows.map (fun r =>
              decide (th ≤ depScore dims iwl r))) ∧
            ∃ p ∈ iwl, p.1 ∉ t.columns ∧ p.1 ≠ "Deprivation_Score" ∧
              p.1 ≠ "Is_Poor")
       ∨ (∃ dwl iwl, resolveWeights dims dwOpt iwOpt = Except.ok (dwl, iwl) ∧
            iwl = [])) := by
  unfold calculate_mpi
  cases hcol : (allIndicators dims).any (fun i => !decide (i ∈ t.columns))
  · -- all columns present
    have hcol' : ¬ ∃ i ∈ allIndicators dims, i ∉ t.columns := by
      rw [List.any_eq_false] at hcol
      rintro ⟨i, hi, hnotin⟩
      exact hnotin (by simpa using hcol i hi)
    simp only [Bool.false_eq_true, if_false]
    cases hres : resolveWeights dims dwOpt iwOpt with
    | error e =>
      have h234 := (resolveWeights_error_iff dims dwOpt iwOpt).mp ⟨e, hres⟩
      dsimp only
      constructor
      · intro _
        rcases h234 with h | h | h
        · exact Or.inr (Or.inl h)
        · exact Or.inr (Or.inr (Or.inl h))
        · exact Or.inr (Or.inr (Or.inr (Or.inl h)))
      · intro _
        exact ⟨e, rfl⟩
    | ok p =>
      obtain ⟨dwl, iwl⟩ := p
      have h234 : ¬((truthy dwOpt = true ∧ truthy iwOpt = true ∧ ∃ p ∈ dims,
            isclose (dget (dwOpt.getD []) p.1)
              ((p.2.map (dget (iwOpt.getD []))).sum) (1/100000) (1/1000) = false)
          ∨ (truthy dwOpt = true ∧ truthy iwOpt = false ∧ ∃ p ∈ dims, p.2 = [])
          ∨ (truthy dwOpt = false ∧ truthy iwOpt = false ∧
              allIndicators dims = [])) := by
        intro h
        obtain ⟨e, he⟩ := (resolveWeights_error_iff dims dwOpt iwOpt).mpr h
        rw [hres] at he
        cases he
      dsimp only
      rw [error_ite4_iff]
      constructor
      · rintro (hb | hb | hb | hb)
        · -- domain-sum check fails
          simp only [Bool.and_eq_true, Bool.not_eq_true'] at hb
          refine Or.inr (Or.inr (Or.inr (Or.inr (Or.inl
            ⟨dwl, iwl, rfl, ?_, hb.2⟩))))
          intro hnil
          rw [hnil] at hb
          simp at hb
        · -- missing-weights check fails
          simp only [Bool.and_eq_true, Bool.not_eq_true', List.any_eq_true,
            Option.isNone_iff_eq_none] at hb
          refine Or.inr (Or.inr (Or.inr (Or.inr (Or.inr (Or.inl
            ⟨dwl, iwl, rfl, ?_, hb.2⟩)))))
          intro hnil
          rw [hnil] at hb
          simp at hb
        · -- KeyError on a weight key outside the scored columns
          rw [poorFlags_map] at hb
          simp only [Bool.and_eq_true, decide_eq_true_iff, List.any_eq_true,
            Bool.not_eq_true', Bool.or_eq_false_iff, decide_eq_false_iff_not,
            beq_eq_false_iff_ne] at hb
          obtain ⟨hH, p, hp, ⟨hnc, hn1⟩, hn2⟩ := hb
          exact Or.inr (Or.inr (Or.inr (Or.inr (Or.inr (Or.inr (Or.inl
            ⟨dwl, iwl, rfl, hH, p, hp, hnc, hn1, hn2⟩))))))
        · -- KeyError sorting the empty contribution frame
          simp only [List.isEmpty_iff] at hb
          exact Or.inr (Or.inr (Or.inr (Or.inr (Or.inr (Or.inr (Or.inr
            ⟨dwl, iwl, rfl, hb⟩))))))
      · rintro (h | h | h | h | ⟨dwl', iwl', heq, h1, h2⟩ |
            ⟨dwl', iwl', heq, h1, h2⟩ |
            ⟨dwl', iwl', heq, hH, p, hp, hnc, hn1, hn2⟩ |
            ⟨dwl', iwl', heq, hnil⟩)
        · exact absurd h hcol'
        · exact absurd (Or.inl h) h234
        · exact absurd (Or.inr (Or.inl h)) h234
        · exact absurd (Or.inr (Or.inr h)) h234
        · -- domain-sum condition
          left
          injection heq with h'
          injection h' with h3 h4
          subst h3
          subst h4
          simp only [Bool.and_eq_true, Bool.not_eq_true', h2, and_true]
          simp [List.isEmpty_iff, h1]
        · -- missing-weights condition
          right; left
          injection heq with h'
          injection h' with h3 h4
          subst h3
          subst h4
          obtain ⟨i, hi, hnone⟩ := h2
          simp only [Bool.and_eq_true, Bool.not_eq_true', List.any_eq_true,
            Option.isNone_iff_eq_none]
          exact ⟨by simp [List.isEmpty_iff, h1], i, hi, hnone⟩
        · -- bad-key condition
          right; right; left
          injection heq with h'
          injection h' with h3 h4
          subst h3
          subst h4
          rw [Bool.and_eq_true]
          constructor
          · rw [decide_eq_true_iff, poorFlags_map]
            exact hH
          · rw [List.any_eq_true]
            refine ⟨p, hp, ?_⟩
            rw [Bool.not_eq_true']
            simp [hnc, hn1, hn2]
        · -- empty-weights condition
          right; right; right
          injection heq with h'
          injection h' with h3 h4
          subst h3
          subst h4
          rw [hnil]
          rfl
  · -- a column is missing: the first check raises
    simp only [if_true]
    constructor
    · intro _
      left
      rw [List.any_eq_true] at hcol
      obtain ⟨i, hi, hni⟩ := hcol
      exact ⟨i, hi, by simpa using hni⟩
    · intro _
      exact ⟨"Missing columns", rfl⟩

/-- Claim C7, as worded, fails: with only domain weights given and a domain
with an empty indicator list, `calculate_mpi` raises, although none of the
four conditions the claim lists holds here: every indicator of `dimensions`
is among the columns, the two weight dictionaries are not both given, and the
given domain weights sum to exactly 1 (and under the claimed per-domain
splitting every indicator would receive a weight, so no indicator lacks an
entry). -/
theorem raises_outside_claimed_conditions :
    calculate_mpi ⟨["a"], [[("a", 1)]]⟩ [("d1", ["a"]), ("d2", [])]
        (some [("d1", 1), ("d2", 0)]) none (1/3)
      = Except.error "domain has no indicators to apply weights to" ∧
    (∀ i ∈ allIndicators [("d1", ["a"]), ("d2", [])],
        i ∈ (["a"] : List String)) ∧
    ¬(truthy (some [("d1", (1 : ℚ)), ("d2", 0)]) = true ∧
        truthy (none : Option Dict) = true) ∧
    sumValues [("d1", (1 : ℚ)), ("d2", 0)] = 1 :=
  ⟨by with_unfolding_all decide, by decide, by decide,
    by with_unfolding_all decide⟩
